import Mathlib

/-!
Verification development for the APE sampling job engine
(`ape/sampling.py`, class `SamplingJob`).

The Python code is shallowly embedded: shared mutable attributes become
fields of explicit records, numpy vectors and matrices become functions
`ℕ → ℚ` together with an explicit dimension, Python ints become `ℤ`
(counts that are naturally nonnegative become `ℕ` and are cast where the
code subtracts), floats become `ℚ` where only field arithmetic occurs and
`ℝ` where square roots appear, and the filesystem touched by
`execute`/`sampling` becomes an explicit map from paths to file contents.
External collaborators (`QChemLog`, `ARCSpecies`, `is_linear`) are inputs
of the embedding: their outputs are fields of `LogData`.
-/

namespace APE

/-- One rotor entry as built by `SamplingJob.get_rotors_dict`
(sampling.py lines 131-145): pivot atoms, top atom group and scan atoms,
taken from `ARCSpecies.rotors_dict`. -/
structure RotorSpec where
  pivots : List Int
  top : List Int
  scan : List Int
deriving DecidableEq, Repr

/-- The data the quantum-chemistry log parser (`QChemLog`, external to the
sampling engine) supplies to `SamplingJob.parse`: atom counts, QM/MM
metadata, charge/multiplicity, linearity of the 3D geometry (computed by the
external `is_linear`), the rotors the external `ARCSpecies.determine_rotors`
detects for this geometry, and the zero-point energy. -/
structure LogData where
  natoms : Nat
  multiplicity : Int
  charge : Int
  isQMMMInterface : Bool
  nQMAtoms : Nat
  nIsotopes : Nat
  linear : Bool
  detectedRotors : List RotorSpec
  zpe : Rat
deriving DecidableEq, Repr

/-- The configuration a `SamplingJob` is constructed with
(sampling.py lines 30-41); fields the constructor defaults to `None`
are `Option`s. -/
structure JobConfig where
  protocol : Option String := none
  multiplicity : Option Int := none
  charge : Option Int := none
  is_ts : Bool := false
deriving DecidableEq, Repr

/-- The attributes `SamplingJob.parse` (sampling.py lines 43-129) leaves on
the job that the mode classification and the sampling phase read. -/
structure ParsedJob where
  protocol : String
  multiplicity : Int
  charge : Int
  natom : Nat
  linearity : Bool
  is_ts : Bool
  isQMMMInterface : Bool
  nQMAtoms : Nat
  rotors_dict : List RotorSpec
  n_rotors : Nat
  nmode : Int
  n_vib : Int
deriving DecidableEq, Repr

/-- `SamplingJob.parse` (sampling.py lines 43-129), restricted to the state
the claims read.  Line numbers: protocol default 48-49, multiplicity/charge
defaults 50-54, `natom` 72 (QM/MM: QM atoms plus capping isotopes) and 91
(standard), linearity 105, rotor determination 108-113 (rotors only under
protocol `UMVT`, otherwise an empty list), mode counts 115-120. -/
def parse (job : JobConfig) (log : LogData) : ParsedJob :=
  let protocol := job.protocol.getD "UMVT"
  let multiplicity := job.multiplicity.getD log.multiplicity
  let charge := job.charge.getD log.charge
  let natom := if log.isQMMMInterface then log.nQMAtoms + log.nIsotopes else log.natoms
  let rotors_dict := if protocol = "UMVT" then log.detectedRotors else []
  let n_rotors := rotors_dict.length
  let tsTerm : Int := if job.is_ts then 1 else 0
  let linTerm : Int := if log.linear then 5 else 6
  let nmode : Int :=
    if log.isQMMMInterface then 3 * log.nQMAtoms - tsTerm
    else 3 * natom - linTerm - tsTerm
  let n_vib : Int :=
    if log.isQMMMInterface then 3 * log.nQMAtoms - n_rotors - tsTerm
    else 3 * natom - linTerm - n_rotors - tsTerm
  { protocol := protocol
    multiplicity := multiplicity
    charge := charge
    natom := natom
    linearity := log.linear
    is_ts := job.is_ts
    isQMMMInterface := log.isQMMMInterface
    nQMAtoms := log.nQMAtoms
    rotors_dict := rotors_dict
    n_rotors := n_rotors
    nmode := nmode
    n_vib := n_vib }

/-- How the branching at the head of `SamplingJob.sampling`
(sampling.py lines 156-183) resolves.  `ranUMVTTorsion`: the
`protocol == 'UMVT' and n_rotors != 0` branch (projected-Hessian path with
torsional sampling).  `ranUMN`: the `protocol == 'UMN' or n_rotors == 0`
branch (plain normal-mode path).  `raisedInputError`: an `InputError` is
raised (`InputError` is imported at line 22 but `sampling` contains no
`raise`, so no run produces this outcome).  `pythonNameError`: neither
branch ran, so `vib_freq`/`unweighted_v`/`min_elect` are unbound and the
code fails later with a `NameError`, not an `InputError`. -/
inductive SamplingOutcome where
  | ranUMVTTorsion
  | ranUMN
  | raisedInputError
  | pythonNameError
deriving DecidableEq, Repr

/-- The branch resolution of `SamplingJob.sampling`
(sampling.py lines 156 and 180): `if self.protocol == 'UMVT' and
self.n_rotors != 0`, `elif self.protocol == 'UMN' or self.n_rotors == 0`,
and no `else` branch. -/
def samplingBranch (protocol : String) (n_rotors : Nat) : SamplingOutcome :=
  if protocol = "UMVT" ∧ n_rotors ≠ 0 then SamplingOutcome.ranUMVTTorsion
  else if protocol = "UMN" ∨ n_rotors = 0 then SamplingOutcome.ranUMN
  else SamplingOutcome.pythonNameError

/-- Modelled from the spec: `sampling_along_torsion` and
`sampling_along_vibration` (in `ape/common.py`, which is not part of the
repository files under review) return, as their `min_elect` result, the
minimum electronic energy among the samples collected for that single
mode ("stop ... All modes share a single discovered ground-state
electronic energy, taken as the minimum energy observed across all
samples"); here the mode's sample energies are a list and `min_elect`
is their minimum.  The `0` for an empty list stands for Python's
unbound-variable behaviour and is never reached by the claims. -/
def minElectOfMode (energies : List Rat) : Rat :=
  match energies with
  | [] => 0
  | e :: rest => rest.foldl min e

/-- The value the local variable `min_elect` holds after the sampling loops
of `SamplingJob.sampling` (lines 167-178 and 185-210): each call to
`sampling_along_torsion`/`sampling_along_vibration` overwrites it, so after
the loops it is the result of the last mode processed.  The modes' sample
energies are listed in processing order (torsions first, then vibrations). -/
def finalMinElect (energyByMode : List (List Rat)) : Rat :=
  energyByMode.foldl (fun _ energies => minElectOfMode energies) 0

/-- Following the spec's words, for comparison with `finalMinElect`: "the
minimum energy observed across all samples of all modes", an
order-independent minimum reduction over every collected sample energy. -/
def minElectAllModes_specFormula (energyByMode : List (List Rat)) : Rat :=
  minElectOfMode energyByMode.flatten

namespace constants

/-- Hartree energy in J (`rmgpy.constants.E_h`, external library). -/
def E_h : Rat := 4.35974434e-18

/-- Avogadro constant in 1/mol (`rmgpy.constants.Na`, external library). -/
def Na : Rat := 6.02214179e23

/-- Reduced Planck constant in J*s (`rmgpy.constants.hbar`). -/
noncomputable def hbar : Real := 1.054571726e-34

/-- Atomic mass unit in kg (`rmgpy.constants.amu`). -/
noncomputable def amu : Real := 1.660538921e-27

/-- Speed of light in m/s (`rmgpy.constants.c`). -/
noncomputable def c : Real := 299792458

end constants

/-- `self.e_elect = min_elect` (sampling.py line 213): the job's electronic
reference energy after `sampling`, in Hartree. -/
def eElectAfterSampling (energyByMode : List (List Rat)) : Rat :=
  finalMinElect energyByMode

/-- `e0 = self.e_elect * constants.E_h * constants.Na + self.zpe`
(sampling.py line 214), stored on the conformer as `E0` in J/mol
(line 215). -/
def E0AfterSampling (energyByMode : List (List Rat)) (zpe : Rat) : Rat :=
  eElectAfterSampling energyByMode * constants.E_h * constants.Na + zpe

/-- `normalizes_vector = vector/magnitude` (sampling.py line 193): the
Cartesian displacement divided by its norm. -/
def normalizedVector (v : Nat → Rat) (magnitude : Rat) : Nat → Rat :=
  fun j => v j / magnitude

/-- `qj = np.matmul(self.internal.B, normalizes_vector)` (line 194): the
Wilson B-matrix, with `nint` rows (internal coordinates) and `ncart = 3N`
columns, applied to a Cartesian vector. -/
def qjOfB (ncart : Nat) (B : Nat → Nat → Rat) (vn : Nat → Rat) : Nat → Rat :=
  fun i => ∑ j ∈ Finset.range ncart, B i j * vn j

/-- The diagonal of the rotor-nulling projector built at lines 195-199:
`P = np.ones(B.shape[0]); if n_rotors != 0: P[-n_rotors:] = 0;
P = np.diag(P)`.  Entry `i` of the diagonal, for a B-matrix with `nint`
rows: `0` on the last `n_rotors` rows when rotors are present, else `1`. -/
def rotorNullDiag (nint n_rotors : Nat) : Nat → Rat :=
  fun i => if n_rotors ≠ 0 ∧ nint - n_rotors ≤ i then 0 else 1

/-- `qj = P.dot(qj)` (line 200): the internal-coordinate displacement of a
vibrational mode after the rotor components are nulled; component `i` of
the result of lines 193-200 taken together. -/
def qjProjected (nint ncart : Nat) (B : Nat → Nat → Rat) (v : Nat → Rat)
    (magnitude : Rat) (n_rotors : Nat) : Nat → Rat :=
  fun i => rotorNullDiag nint n_rotors i * qjOfB ncart B (normalizedVector v magnitude) i

/-- `magnitude = np.linalg.norm(vector)` (line 190): the Euclidean norm of
an `n`-component real vector. -/
noncomputable def vectorNorm (n : Nat) (v : Nat → Real) : Real :=
  Real.sqrt (∑ j ∈ Finset.range n, v j ^ 2)

/-- `reduced_mass = magnitude ** -2 / constants.amu` (line 191): in amu. -/
noncomputable def reduced_mass (magnitude : Real) : Real :=
  magnitude ^ (-2 : Int) / constants.amu

/-- `step_size = np.sqrt(constants.hbar / (reduced_mass * constants.amu)
/ (freq * 2 * np.pi * constants.c * 100)) * 10 ** 10` (line 192): in
angstrom, for `freq` in cm^-1 and `reduced_mass` in amu. -/
noncomputable def step_size (reduced_mass freq : Real) : Real :=
  Real.sqrt (constants.hbar / (reduced_mass * constants.amu)
    / (freq * 2 * Real.pi * constants.c * 100)) * 10 ^ (10 : Nat)

/-- Following the spec's words, for comparison with `reduced_mass`:
"reduced_mass = |displacement_vector|^-2 in atomic mass units", the
inverse square of the norm, expressed in amu. -/
noncomputable def reduced_mass_specFormula (magnitude : Real) : Real :=
  (magnitude ^ (2 : Nat))⁻¹ / constants.amu

/-- Following the spec's words: the angular frequency `omega = 2*pi*c*freq`
for `freq` in cm^-1, with the speed of light taken in cm/s. -/
noncomputable def omega_specFormula (freq : Real) : Real :=
  2 * Real.pi * (constants.c * 100) * freq

/-- Following the spec's words, for comparison with `step_size`:
"step_size = sqrt(hbar / (reduced_mass_kg * omega)) * (length-unit
conversion)", with `reduced_mass_kg = reduced_mass * amu` and the
conversion from metres to angstroms. -/
noncomputable def step_size_specFormula (reduced_mass freq : Real) : Real :=
  Real.sqrt (constants.hbar / (reduced_mass * constants.amu * omega_specFormula freq))
    * 10 ^ (10 : Nat)

/-- One CSV row as written by
`SamplingJob.write_samping_result_to_csv_file` (sampling.py lines 229-254):
the `['min_elect', e]` row, a `mode_<i>_tors`/`mode_<i>_vib` header, the
`['symmetry_number', s]` row, the `['M', m]` and `['K', k]` rows, the
`['step_size', v]` row, the `['sample', 'total energy(HARTREE)']` column
header, and a `[sample, energy]` data row. -/
inductive CsvRow where
  | minElectRow (e : Rat)
  | modeHeader (index : Nat) (tors : Bool)
  | symmetryNumberRow (s : Int)
  | mRow (m : Int)
  | kRow (k : Int)
  | stepSizeRow (v : Rat)
  | columnHeader
  | sampleRow (sample : Int) (energy : Rat)
deriving DecidableEq, Repr

/-- The per-mode data `write_samping_result_to_csv_file` reads:
`mode_dict[mode]` (the kind tag, symmetry number, `M`, `K`, step size) and
`energy_dict[mode]` (a finite map from sample index to energy, given by its
key list and its lookup function). -/
structure ModeRecord where
  index : Nat
  tors : Bool
  symmetryNumber : Int
  mValue : Int
  kValue : Int
  stepSize : Rat
  sampleKeys : List Int
  energy : Int → Rat

/-- The rows the writer emits for one mode (sampling.py lines 238-253):
the `mode_<i>_tors`/`mode_<i>_vib` header, the symmetry-number row for a
torsion only, `M`, `K`, `step_size`, the column header, then one data row
per sample with the sample indices sorted ascending
(`for sample in sorted(energy_dict[mode].keys())`). -/
def modeRows (m : ModeRecord) : List CsvRow :=
  [CsvRow.modeHeader m.index m.tors]
    ++ (if m.tors then [CsvRow.symmetryNumberRow m.symmetryNumber] else [])
    ++ [CsvRow.mRow m.mValue, CsvRow.kRow m.kValue,
        CsvRow.stepSizeRow m.stepSize, CsvRow.columnHeader]
    ++ (List.insertionSort (· ≤ ·) m.sampleKeys).map
        (fun k => CsvRow.sampleRow k (m.energy k))

/-- The rows one invocation of `write_samping_result_to_csv_file`
(lines 229-254) appends to the file: the `['min_elect', e]` row only when
the file did not exist before the call (`write_min_elect`, lines 230-232
and 236-237), then the block of each mode in order. -/
def writeSampingResultRows (fileExists : Bool) (e_elect : Rat)
    (modes : List ModeRecord) : List CsvRow :=
  (if fileExists then [] else [CsvRow.minElectRow e_elect])
    ++ (modes.map modeRows).flatten

/-- Whether a row is the `['min_elect', e]` row. -/
def isMinElectRow : CsvRow → Bool :=
  fun r => match r with
  | CsvRow.minElectRow _ => true
  | _ => false

/-- The sample indices of the data rows, in the order the rows appear. -/
def sampleKeysOfRows (rows : List CsvRow) : List Int :=
  rows.filterMap (fun r => match r with
    | CsvRow.sampleRow k _ => some k
    | _ => none)

/-- The content of a file the sampling flow writes: either the
sampling-result CSV (a list of `CsvRow`s), or one mode's displaced-geometry
trajectory text file as `write_sampling_displaced_geometries`
(sampling.py lines 257-270) writes it — the `record_script` blocks
`(natom, sample, energy, xyz)` in sample order, then the completion
timestamp (the external current time read at line 265) and the closing
banner. -/
inductive FileData where
  | csv (rows : List CsvRow)
  | trajectory (natom : Nat) (points : List (Int × Rat × String)) (finishedAt : String)
deriving DecidableEq, Repr

/-- The filesystem as `execute`/`sampling` touch it: a map from paths to
the content of the file at that path (`none`: no such file). -/
abbrev FileSystem := String → Option FileData

/-- The CSV rows held at a path: a missing file contributes no rows (and a
non-CSV file, which the flow never appends to, likewise). -/
def csvRowsOf : Option FileData → List CsvRow
  | some (FileData.csv rows) => rows
  | _ => []

/-- `self.csv_path` built by joining `self.output_directory` with
`'{}_samping_result.csv'.format(self.label)` (sampling.py line 276) —
`samping` [sic] as the source spells it. -/
def csvPath (output_directory label : String) : String :=
  output_directory ++ "/" ++ label ++ "_samping_result.csv"

/-- The plot directory, `self.output_directory` joined with `'plot'` and
`self.label` (sampling.py line 222): where the trajectory files go. -/
def plotPath (output_directory label : String) : String :=
  output_directory ++ "/plot/" ++ label

/-- `txt_path`, the plot directory joined with `'mode_{}.txt'.format(mode)`
(sampling.py line 260). -/
def modeTxtPath (plotDir : String) (mode : Nat) : String :=
  plotDir ++ "/mode_" ++ toString mode ++ ".txt"

/-- `os.remove(path)`. -/
def removeFile (fs : FileSystem) (p : String) : FileSystem :=
  fun q => if q = p then none else fs q

/-- Appending rows to the CSV at `p` (the writer opens with mode `'a'`,
line 234): a missing file starts empty. -/
def appendRows (fs : FileSystem) (p : String) (rows : List CsvRow) : FileSystem :=
  fun q => if q = p then some (FileData.csv (csvRowsOf (fs p) ++ rows)) else fs q

/-- `write_samping_result_to_csv_file` (lines 229-254) as a filesystem
step: it checks existence (lines 230-232), then appends its rows. -/
def writeSampingResultToCsvFile (fs : FileSystem) (p : String) (e_elect : Rat)
    (modes : List ModeRecord) : FileSystem :=
  appendRows fs p (writeSampingResultRows (fs p).isSome e_elect modes)

/-- The trajectory file content written for one mode (lines 259-270): one
block per sample, the samples in increasing index order
(`for sample in sorted(energy_dict[mode].keys())`, line 262), each with
that sample's energy and xyz geometry, then the timestamp. -/
def trajectoryFor (natom : Nat) (m : ModeRecord) (xyz : Int → String)
    (time : String) : FileData :=
  FileData.trajectory natom
    ((List.insertionSort (· ≤ ·) m.sampleKeys).map (fun s => (s, m.energy s, xyz s)))
    time

/-- `write_sampling_displaced_geometries` (lines 257-270) as a filesystem
step: for each mode, in order, it opens `mode_<i>.txt` under the plot
directory with mode `'w'` (create or overwrite) and writes that mode's
trajectory; `xyz` is `xyz_dict` (mode index, then sample index) and `natom`
is `self.natom`. -/
def writeDisplacedGeometries (fs : FileSystem) (plotDir : String) (natom : Nat)
    (modes : List ModeRecord) (xyz : Nat → Int → String) (time : String) :
    FileSystem :=
  modes.foldl
    (fun acc m => fun q =>
      if q = modeTxtPath plotDir m.index
      then some (trajectoryFor natom m (xyz m.index) time)
      else acc q)
    fs

/-- The persistence block of `SamplingJob.sampling` (lines 217-225): remove
the CSV when it exists (218-219), call the CSV writer (220), then write the
per-mode displaced-geometry trajectories under the plot directory
(222-225). -/
def samplingSaveResult (fs : FileSystem) (p plotDir : String) (e_elect : Rat)
    (modes : List ModeRecord) (xyz : Nat → Int → String) (natom : Nat)
    (time : String) : FileSystem :=
  let fs1 := if (fs p).isSome then removeFile fs p else fs
  let fs2 := writeSampingResultToCsvFile fs1 p e_elect modes
  writeDisplacedGeometries fs2 plotDir natom modes xyz time

/-- `SamplingJob.execute` (lines 272-280) as a filesystem step: set the CSV
path, remove an existing CSV (lines 277-278), then run `parse` and
`sampling` as one unit; `e_elect`, `modes`, `xyz` and `natom` stand for the
results the parse-and-sample phases compute before `sampling` persists
them, and `time` for the external clock read while writing the
trajectories. -/
def executeJob (fs : FileSystem) (output_directory label : String)
    (e_elect : Rat) (modes : List ModeRecord) (xyz : Nat → Int → String)
    (natom : Nat) (time : String) : FileSystem :=
  let p := csvPath output_directory label
  let fs1 := if (fs p).isSome then removeFile fs p else fs
  samplingSaveResult fs1 p (plotPath output_directory label) e_elect modes xyz natom time

/-- A standard (non-QM/MM) nonlinear 3-atom log with no detectable rotor. -/
def exLog0 : LogData :=
  { natoms := 3, multiplicity := 1, charge := 0, isQMMMInterface := false,
    nQMAtoms := 0, nIsotopes := 0, linear := false, detectedRotors := [], zpe := 1 }

/-- A standard nonlinear 3-atom log for which rotor detection finds one
rotor. -/
def exLogRotor : LogData :=
  { natoms := 3, multiplicity := 1, charge := 0, isQMMMInterface := false,
    nQMAtoms := 0, nIsotopes := 0, linear := false,
    detectedRotors := [{ pivots := [1, 2], top := [1], scan := [1, 2, 3, 4] }], zpe := 1 }

/-- A job constructed with every optional argument left `None`. -/
def exJobNone : JobConfig := {}

/-- A job constructed with `protocol='UMVT'`. -/
def exJobUMVT : JobConfig := { protocol := some "UMVT" }

/-- A job constructed with `protocol='UMN'`. -/
def exJobUMN : JobConfig := { protocol := some "UMN" }

/-- A job constructed with an unrecognized protocol string. -/
def exJobFoo : JobConfig := { protocol := some "FOO" }

/-- A vibrational mode record with two samples, keys out of order. -/
def exModeVib : ModeRecord :=
  { index := 1, tors := false, symmetryNumber := 1, mValue := 2, kValue := 3,
    stepSize := 1/2, sampleKeys := [1, 0, -1], energy := fun k => (k : Rat) }

/-- A torsional mode record with two samples. -/
def exModeTors : ModeRecord :=
  { index := 1, tors := true, symmetryNumber := 3, mValue := 4, kValue := 5,
    stepSize := 1/4, sampleKeys := [2, 0], energy := fun k => (k : Rat) }

theorem parse_n_rotors_of_protocol (job : JobConfig) (log : LogData) :
    (parse job log).n_rotors
      = (if job.protocol.getD "UMVT" = "UMVT" then log.detectedRotors else []).length :=
  rfl

theorem samplingBranch_ne_inputError (protocol : String) (n_rotors : Nat) :
    samplingBranch protocol n_rotors ≠ SamplingOutcome.raisedInputError := by
  unfold samplingBranch
  split
  · simp
  · split <;> simp

/-- C1: Mode classification after `parse`: for a standard (non-QM/MM)
molecule, `nmode = 3*natom - (5 if linear else 6) - (1 if is_ts else 0)` and
`n_vib = 3*natom - (5 if linear else 6) - n_rotors - (1 if is_ts else 0)`;
for a QM/MM system, `nmode = 3*n_qm_atoms - (1 if is_ts else 0)` and
`n_vib = 3*n_qm_atoms - n_rotors - (1 if is_ts else 0)`; in particular, a
nonlinear non-transition-state molecule with no rotors has
`n_vib = 3*natom - 6`. -/
theorem parse_mode_counts (job : JobConfig) (log : LogData) :
    ((parse job log).isQMMMInterface = false →
      (parse job log).nmode
          = 3 * ((parse job log).natom : Int)
            - (if (parse job log).linearity then 5 else 6)
            - (if (parse job log).is_ts then 1 else 0)
        ∧ (parse job log).n_vib
          = 3 * ((parse job log).natom : Int)
            - (if (parse job log).linearity then 5 else 6)
            - (parse job log).n_rotors
            - (if (parse job log).is_ts then 1 else 0))
  ∧ ((parse job log).isQMMMInterface = true →
      (parse job log).nmode
          = 3 * ((parse job log).nQMAtoms : Int)
            - (if (parse job log).is_ts then 1 else 0)
        ∧ (parse job log).n_vib
          = 3 * ((parse job log).nQMAtoms : Int)
            - (parse job log).n_rotors
            - (if (parse job log).is_ts then 1 else 0))
  ∧ ((parse job log).isQMMMInterface = false → (parse job log).linearity = false →
      (parse job log).is_ts = false → (parse job log).n_rotors = 0 →
      (parse job log).n_vib = 3 * ((parse job log).natom : Int) - 6) := by
  refine ⟨fun hq => ?_, fun hq => ?_, fun hq hl ht hr => ?_⟩
  · simp only [parse] at hq ⊢
    simp [hq]
  · simp only [parse] at hq ⊢
    simp [hq]
  · rw [parse_n_rotors_of_protocol] at hr
    simp only [parse] at hq hl ht ⊢
    simp [hq, hl, ht, hr]

/-- C2 is false as the claim states it: for a nonlinear non-transition-state
3-atom molecule with one detected rotor under UMVT, `parse` yields
`nmode = 3` and `n_vib = 2`, while the claimed chain demands
`nmode = 3*natom - 6 - 0 + n_rotors = 4`. -/
theorem parse_dof_chain_cex :
    ¬((parse exJobUMVT exLogRotor).n_vib + (parse exJobUMVT exLogRotor).n_rotors
          + (if (parse exJobUMVT exLogRotor).is_ts then 1 else 0)
        = (parse exJobUMVT exLogRotor).nmode
      ∧ (parse exJobUMVT exLogRotor).nmode
        = 3 * ((parse exJobUMVT exLogRotor).natom : Int)
          - (if (parse exJobUMVT exLogRotor).linearity then 5 else 6)
          - (if (parse exJobUMVT exLogRotor).is_ts then 1 else 0)
          + (parse exJobUMVT exLogRotor).n_rotors) := by
  decide

/-- C2 (amended): the conserved-count invariant that actually holds after
`parse` is `n_vib + n_rotors = nmode`, with
`nmode = 3*natom - (5 if linear else 6) - (1 if is_ts else 0)` for standard
molecules and `nmode = 3*n_qm_atoms - (1 if is_ts else 0)` for QM/MM ones:
the transition-state mode is already excluded from `nmode` itself, so it is
not added back, and `n_rotors` does not enlarge `nmode`. -/
theorem parse_dof_conserved (job : JobConfig) (log : LogData) :
    (parse job log).n_vib + (parse job log).n_rotors = (parse job log).nmode
  ∧ ((parse job log).isQMMMInterface = false →
      (parse job log).nmode
        = 3 * ((parse job log).natom : Int)
          - (if (parse job log).linearity then 5 else 6)
          - (if (parse job log).is_ts then 1 else 0))
  ∧ ((parse job log).isQMMMInterface = true →
      (parse job log).nmode
        = 3 * ((parse job log).nQMAtoms : Int)
          - (if (parse job log).is_ts then 1 else 0)) := by
  refine ⟨?_, fun hq => ?_, fun hq => ?_⟩
  · cases hq : log.isQMMMInterface <;> simp [parse, hq] <;> ring
  · simp only [parse] at hq ⊢
    simp [hq]
  · simp only [parse] at hq ⊢
    simp [hq]

/-- C4 is false as the claim states it: a job constructed with the
unrecognized protocol string "FOO", once parsed, has `n_rotors = 0` and its
`sampling` call executes the normal-mode (UMN) strategy — no `InputError`
is raised. -/
theorem samplingBranch_unrecognized_cex :
    (parse exJobFoo exLog0).protocol ≠ "UMVT"
  ∧ (parse exJobFoo exLog0).protocol ≠ "UMN"
  ∧ samplingBranch (parse exJobFoo exLog0).protocol (parse exJobFoo exLog0).n_rotors
      = SamplingOutcome.ranUMN := by
  decide

/-- C4 (amended): `sampling` never raises `InputError` (its branch head has
no `else` arm and `InputError`, though imported, is never raised); after
`parse`, the branching always resolves to exactly one of the two
strategies — the UMVT torsion path when `protocol = 'UMVT'` and
`n_rotors ≠ 0`, otherwise the normal-mode path, into which unset (defaulted
to UMVT with no rotors) and unrecognized protocols fall because `parse`
gives them `n_rotors = 0`. -/
theorem samplingBranch_total :
    (∀ (protocol : String) (n_rotors : Nat),
        samplingBranch protocol n_rotors ≠ SamplingOutcome.raisedInputError)
  ∧ (∀ (job : JobConfig) (log : LogData),
        samplingBranch (parse job log).protocol (parse job log).n_rotors
          = SamplingOutcome.ranUMVTTorsion
      ∨ samplingBranch (parse job log).protocol (parse job log).n_rotors
          = SamplingOutcome.ranUMN) := by
  refine ⟨samplingBranch_ne_inputError, fun job log => ?_⟩
  by_cases hp : (parse job log).protocol = "UMVT"
  · by_cases hr : (parse job log).n_rotors = 0
    · exact Or.inr (by simp [samplingBranch, hp, hr])
    · exact Or.inl (by simp [samplingBranch, hp, hr])
  · have hr : (parse job log).n_rotors = 0 := by
      rw [parse_n_rotors_of_protocol]
      have : job.protocol.getD "UMVT" ≠ "UMVT" := by
        simpa [parse] using hp
      simp [this]
    exact Or.inr (by simp [samplingBranch, hr])

/-- C9: for a job whose protocol is UMN at parse time, `parse` leaves
`n_rotors = 0` and an empty rotor dictionary, so all `nmode` modes are
treated as vibrations. -/
theorem parse_UMN_no_rotors (job : JobConfig) (log : LogData)
    (h : job.protocol = some "UMN") :
    (parse job log).n_rotors = 0 ∧ (parse job log).rotors_dict = [] := by
  have hne : ("UMN" : String) ≠ "UMVT" := by decide
  simp [parse, h, hne]

/-- Witness for C9 at a concrete job with `protocol='UMN'`. -/
theorem parse_UMN_no_rotors_witness :
    (parse exJobUMN exLog0).n_rotors = 0 ∧ (parse exJobUMN exLog0).rotors_dict = [] :=
  parse_UMN_no_rotors exJobUMN exLog0 rfl

/-- C10: a job constructed with `protocol=None` gets the protocol `'UMVT'`
silently assigned by `parse` (lines 48-49), so an unset protocol never
reaches `sampling` unset and is never rejected with `InputError`. -/
theorem parse_default_protocol (job : JobConfig) (log : LogData)
    (h : job.protocol = none) :
    (parse job log).protocol = "UMVT"
  ∧ samplingBranch (parse job log).protocol (parse job log).n_rotors
      ≠ SamplingOutcome.raisedInputError := by
  exact ⟨by simp [parse, h], samplingBranch_ne_inputError _ _⟩

/-- Witness for C10 at a concrete job constructed with no protocol. -/
theorem parse_default_protocol_witness :
    (parse exJobNone exLog0).protocol = "UMVT"
  ∧ samplingBranch (parse exJobNone exLog0).protocol (parse exJobNone exLog0).n_rotors
      ≠ SamplingOutcome.raisedInputError :=
  parse_default_protocol exJobNone exLog0 rfl

theorem foldl_overwrite (l : List (List Rat)) (init : Rat) (h : l ≠ []) :
    l.foldl (fun _ es => minElectOfMode es) init
      = minElectOfMode (l.getLast?.getD []) := by
  induction l generalizing init with
  | nil => exact absurd rfl h
  | cons a t ih =>
    cases t with
    | nil => simp
    | cons b t2 =>
      rw [List.foldl_cons, ih (minElectOfMode a) (by simp), List.getLast?_cons_cons]

/-- C3 is false as the claim states it: with two modes whose sample-energy
lists are `[0]` and `[5]`, the code leaves `e_elect = 5` (the last mode's
`min_elect`), while the minimum across all samples of all modes is 0. -/
theorem eElect_not_global_min_cex :
    eElectAfterSampling [[0], [5]] ≠ minElectAllModes_specFormula [[0], [5]]
  ∧ eElectAfterSampling [[0], [5]] = 5
  ∧ minElectAllModes_specFormula [[0], [5]] = 0 := by
  decide

/-- C3 (amended): after `sampling`, `e_elect` equals the `min_elect`
returned for the last mode processed — the minimum among that single mode's
sample energies, not an order-independent minimum over every collected
sample — and the conformer's `E0` is `e_elect` converted to J/mol
(multiplied by `E_h * Na`) plus the externally supplied zero-point
energy. -/
theorem eElect_last_mode (energyByMode : List (List Rat)) (zpe : Rat)
    (h : energyByMode ≠ []) :
    eElectAfterSampling energyByMode = minElectOfMode (energyByMode.getLast?.getD [])
  ∧ E0AfterSampling energyByMode zpe
      = eElectAfterSampling energyByMode * constants.E_h * constants.Na + zpe := by
  constructor
  · unfold eElectAfterSampling finalMinElect
    exact foldl_overwrite energyByMode 0 h
  · rfl

/-- Witness for C3's amended theorem at a concrete two-mode energy table. -/
theorem eElect_last_mode_witness :
    eElectAfterSampling [[0], [5]]
        = minElectOfMode (([[0], [5]] : List (List Rat)).getLast?.getD [])
  ∧ E0AfterSampling [[0], [5]] 1
      = eElectAfterSampling [[0], [5]] * constants.E_h * constants.Na + 1 :=
  eElect_last_mode [[0], [5]] 1 (by decide)

/-- C5: for every vibrational mode processed by `sampling` on a job with
`n_rotors > 0`, the internal-coordinate displacement `qj` — the B-matrix
applied to the normalized Cartesian displacement and then the rotor-nulling
projector — has its last `n_rotors` components (the rotor internal
coordinates, the last rows of the B-matrix) exactly zero. -/
theorem qjProjected_rotor_components_zero (nint ncart : Nat) (B : Nat → Nat → Rat)
    (v : Nat → Rat) (magnitude : Rat) (n_rotors i : Nat)
    (hr : 0 < n_rotors) (hi : nint - n_rotors ≤ i) :
    qjProjected nint ncart B v magnitude n_rotors i = 0 := by
  unfold qjProjected rotorNullDiag
  rw [if_pos ⟨Nat.pos_iff_ne_zero.mp hr, hi⟩, zero_mul]

/-- Witness for C5 at a concrete B-matrix, vector and rotor count. -/
theorem qjProjected_rotor_components_zero_witness :
    qjProjected 3 2 (fun _ _ => 1) (fun _ => 1) 1 1 2 = 0 :=
  qjProjected_rotor_components_zero 3 2 (fun _ _ => 1) (fun _ => 1) 1 1 2
    (by decide) (by decide)

/-- C6: the code's `reduced_mass` is the inverse square of the norm of the
mode's unweighted displacement vector expressed in atomic mass units, and
its `step_size` equals `sqrt(hbar / (reduced_mass_kg * omega))` converted
to angstroms, where `reduced_mass_kg = reduced_mass * amu` and
`omega = 2*pi*c*freq` with `freq` in cm^-1 and the speed of light in
cm/s. -/
theorem step_size_matches_spec (n : Nat) (v : Nat → Real) (rm freq : Real) :
    reduced_mass (vectorNorm n v) = reduced_mass_specFormula (vectorNorm n v)
  ∧ step_size rm freq = step_size_specFormula rm freq := by
  constructor
  · unfold reduced_mass reduced_mass_specFormula
    have h2 : vectorNorm n v ^ (-2 : Int) = (vectorNorm n v ^ (2 : Nat))⁻¹ := by
      rw [zpow_neg]
      norm_cast
    rw [h2]
  · unfold step_size step_size_specFormula omega_specFormula
    have h : rm * constants.amu * (freq * 2 * Real.pi * constants.c * 100)
        = rm * constants.amu * (2 * Real.pi * (constants.c * 100) * freq) := by
      ring
    rw [div_div, h]

theorem countP_modeRows_minElect (m : ModeRecord) :
    (modeRows m).countP isMinElectRow = 0 := by
  cases ht : m.tors <;>
    simp [modeRows, ht, isMinElectRow, List.countP_append, List.countP_cons,
      List.countP_map, Function.comp, List.countP_eq_zero]

theorem countP_flatten_modeRows_minElect (modes : List ModeRecord) :
    ((modes.map modeRows).flatten).countP isMinElectRow = 0 := by
  induction modes with
  | nil => rfl
  | cons a t ih =>
    simp [List.countP_append, countP_modeRows_minElect a, ih]

theorem writeRows_minElect_count (fe : Bool) (e : Rat) (modes : List ModeRecord) :
    (writeSampingResultRows fe e modes).countP isMinElectRow
      = if fe then 0 else 1 := by
  unfold writeSampingResultRows
  rw [List.countP_append, countP_flatten_modeRows_minElect]
  cases fe <;> simp [isMinElectRow]

theorem filterMap_comp_sampleRows (f : Int → Rat) (l : List Int) :
    List.filterMap
        ((fun r => match r with
            | CsvRow.sampleRow k _ => some k
            | _ => none) ∘ fun k => CsvRow.sampleRow k (f k)) l = l := by
  induction l with
  | nil => rfl
  | cons a t ih => simp [List.filterMap_cons, Function.comp, ih]

theorem sampleKeys_modeRows (m : ModeRecord) :
    sampleKeysOfRows (modeRows m) = List.insertionSort (· ≤ ·) m.sampleKeys := by
  cases ht : m.tors <;>
    simp [sampleKeysOfRows, modeRows, ht, List.filterMap_append] <;>
    exact filterMap_comp_sampleRows m.energy _

/-- C7: one invocation of the CSV writer appends the `['min_elect', e]` row
exactly once when the file does not already exist and never otherwise
(since it appends); a file it creates afresh therefore contains that row
exactly once; and each mode contributes, in order, its
`mode_<i>_tors`/`mode_<i>_vib` header, a symmetry-number row exactly when
the mode is torsional, the `M`, `K` and `step_size` rows, the column-header
row, and one sample row per sample with the sample indices in increasing
order (a sorted permutation of the mode's sample keys). -/
theorem writeCsv_format (fe : Bool) (e : Rat) (modes : List ModeRecord) :
    ((writeSampingResultRows fe e modes).countP isMinElectRow
        = if fe then 0 else 1)
  ∧ writeSampingResultRows fe e modes
      = (if fe then [] else [CsvRow.minElectRow e]) ++ (modes.map modeRows).flatten
  ∧ (∀ (fs : FileSystem) (p : String), fs p = none →
      (csvRowsOf ((writeSampingResultToCsvFile fs p e modes) p)).countP isMinElectRow
        = 1)
  ∧ ∀ m ∈ modes,
      sampleKeysOfRows (modeRows m) = List.insertionSort (· ≤ ·) m.sampleKeys
      ∧ List.Sorted (· ≤ ·) (sampleKeysOfRows (modeRows m))
      ∧ (sampleKeysOfRows (modeRows m)).Perm m.sampleKeys
      ∧ ((CsvRow.symmetryNumberRow m.symmetryNumber ∈ modeRows m) ↔ m.tors = true) := by
  refine ⟨writeRows_minElect_count fe e modes, rfl, fun fs p hp => ?_, fun m _ => ?_⟩
  · simp only [writeSampingResultToCsvFile, appendRows, hp, Option.isSome_none,
      if_pos rfl]
    simpa [csvRowsOf] using writeRows_minElect_count false e modes
  · refine ⟨sampleKeys_modeRows m, ?_, ?_, ?_⟩
    · rw [sampleKeys_modeRows m]
      exact List.sorted_insertionSort (· ≤ ·) m.sampleKeys
    · rw [sampleKeys_modeRows m]
      exact List.perm_insertionSort (· ≤ ·) m.sampleKeys
    · cases ht : m.tors <;> simp [modeRows, ht]

theorem removeFile_self (fs : FileSystem) (p : String) : removeFile fs p p = none := by
  simp [removeFile]

theorem csvPath_lastChar (outDir label : String) :
    (csvPath outDir label).data.reverse.head? = some 'v' := by
  have hlit : ("_samping_result.csv" : String).data
      = ['_', 's', 'a', 'm', 'p', 'i', 'n', 'g', '_', 'r', 'e', 's', 'u', 'l', 't',
         '.', 'c', 's', 'v'] := rfl
  show ((outDir ++ "/" ++ label) ++ "_samping_result.csv").data.reverse.head? = some 'v'
  rw [String.data_append, List.reverse_append, hlit]
  rfl

theorem modeTxtPath_lastChar (plotDir : String) (i : Nat) :
    (modeTxtPath plotDir i).data.reverse.head? = some 't' := by
  have hlit : (".txt" : String).data = ['.', 't', 'x', 't'] := rfl
  show ((plotDir ++ "/mode_" ++ toString i) ++ ".txt").data.reverse.head? = some 't'
  rw [String.data_append, List.reverse_append, hlit]
  rfl

theorem csvPath_ne_modeTxtPath (outDir label plotDir : String) (i : Nat) :
    csvPath outDir label ≠ modeTxtPath plotDir i := by
  intro h
  have h1 := csvPath_lastChar outDir label
  rw [h, modeTxtPath_lastChar plotDir i] at h1
  exact absurd h1 (by decide)

theorem writeDisplacedGeometries_preserves (plotDir : String) (natom : Nat)
    (xyz : Nat → Int → String) (time : String) (q : String) :
    ∀ (modes : List ModeRecord),
      (∀ m ∈ modes, q ≠ modeTxtPath plotDir m.index) →
      ∀ (fs : FileSystem),
        writeDisplacedGeometries fs plotDir natom modes xyz time q = fs q := by
  intro modes
  induction modes with
  | nil => exact fun _ _ => rfl
  | cons a t ih =>
    intro hq fs
    calc writeDisplacedGeometries fs plotDir natom (a :: t) xyz time q
        = writeDisplacedGeometries
            (fun q' => if q' = modeTxtPath plotDir a.index
              then some (trajectoryFor natom a (xyz a.index) time) else fs q')
            plotDir natom t xyz time q := rfl
      _ = if q = modeTxtPath plotDir a.index
            then some (trajectoryFor natom a (xyz a.index) time) else fs q :=
          ih (fun m hm => hq m (List.mem_cons_of_mem a hm)) _
      _ = fs q := if_neg (hq a (List.mem_cons_self a t))

/-- C8 is false as the claim states it: the CSV filename the code builds at
sampling.py line 276 is `<label>_samping_result.csv` — `samping` [sic],
matching the writer's own name `write_samping_result_to_csv_file` — not
`<label>_sampling_result.csv`. -/
theorem csvPath_spelling_cex :
    csvPath "out" "mol" ≠ "out" ++ "/" ++ "mol" ++ "_sampling_result.csv"
  ∧ csvPath "out" "mol" = "out/mol_samping_result.csv" := by
  decide

/-- C8 (amended): `execute` writes the sampling-result CSV at
`<output_directory>/<label>_samping_result.csv` — `samping` [sic] as at
line 276 — and on re-invocation with an existing output path it first
deletes the existing CSV file and regenerates it from the freshly computed
results, running parse then sampling as one unit (the trajectory files the
run also writes live under the plot directory and end in `.txt`, so they
never overwrite the regenerated CSV). -/
theorem executeJob_regenerates (fs : FileSystem) (outDir label : String)
    (e : Rat) (modes : List ModeRecord) (xyz : Nat → Int → String)
    (natom : Nat) (time : String) :
    csvPath outDir label = outDir ++ "/" ++ label ++ "_samping_result.csv"
  ∧ executeJob fs outDir label e modes xyz natom time (csvPath outDir label)
      = some (FileData.csv (writeSampingResultRows false e modes)) := by
  refine ⟨rfl, ?_⟩
  simp only [executeJob, samplingSaveResult]
  rw [writeDisplacedGeometries_preserves (plotPath outDir label) natom xyz time
      (csvPath outDir label) modes
      (fun m _ => csvPath_ne_modeTxtPath outDir label (plotPath outDir label) m.index)]
  cases hfs : fs (csvPath outDir label) <;>
    simp [writeSampingResultToCsvFile, appendRows, hfs, removeFile_self, csvRowsOf]

end APE
